import Mathlib

/-!
Shallow embedding of the syntax-classification core of GNU m4
(`src/m4/syntax.c`): the per-byte classification table, the
`changesyntax` verbs, the quote/comment installers, the derived
boolean checkers, and the quote-age computation and cache.

Bytes are modelled as `Nat` values below 256, table entries as `Nat`
bit sets, C strings as `List Nat` of non-NUL bytes, and nullable
pointers as `Option`.
-/

namespace M4Syntax

/-- Modelled from the spec: the category constants of `m4module.h` are not
part of `src/`.  Spec section 3 fixes the data model (fifteen mutually
exclusive basis categories plus the two mask bits RQUOTE/ECOMM layered on
top), and the OR-combined `m4_has_syntax_bits` tests in `syntax.c` require each
category to occupy its own bit. -/
def M4_SYNTAX_IGNORE : Nat := 0x00001

def M4_SYNTAX_OTHER : Nat := 0x00002

def M4_SYNTAX_SPACE : Nat := 0x00004

def M4_SYNTAX_OPEN : Nat := 0x00008

def M4_SYNTAX_CLOSE : Nat := 0x00010

def M4_SYNTAX_COMMA : Nat := 0x00020

def M4_SYNTAX_DOLLAR : Nat := 0x00040

def M4_SYNTAX_LBRACE : Nat := 0x00080

def M4_SYNTAX_RBRACE : Nat := 0x00100

def M4_SYNTAX_ACTIVE : Nat := 0x00200

def M4_SYNTAX_ESCAPE : Nat := 0x00400

def M4_SYNTAX_ALPHA : Nat := 0x00800

def M4_SYNTAX_NUM : Nat := 0x01000

def M4_SYNTAX_LQUOTE : Nat := 0x02000

def M4_SYNTAX_BCOMM : Nat := 0x04000

def M4_SYNTAX_RQUOTE : Nat := 0x08000

def M4_SYNTAX_ECOMM : Nat := 0x10000

/-- The two mask categories, exactly as `syntax.c` relies on them. -/
def M4_SYNTAX_MASKS : Nat := M4_SYNTAX_RQUOTE ||| M4_SYNTAX_ECOMM

/-- The C expression `~code` on a 32-bit `int` operand, restricted to the
unsigned view: complement within 32 bits. -/
def not32 (code : Nat) : Nat := 0xffffffff ^^^ code

/-- Modelled from the spec: the default delimiter strings `DEF_LQUOTE`,
`DEF_RQUOTE`, `DEF_BCOMM`, `DEF_ECOMM` of the missing header are the
backtick, apostrophe, hash and newline bytes (spec sections 4.1 and 6). -/
def DEF_LQUOTE : List Nat := [96]

def DEF_RQUOTE : List Nat := [39]

def DEF_BCOMM : List Nat := [35]

def DEF_ECOMM : List Nat := [10]

/-- `m4_string_pair`: two owned byte strings with explicit lengths. -/
structure m4_string_pair where
  str1 : List Nat
  len1 : Nat
  str2 : List Nat
  len2 : Nat
deriving DecidableEq, Repr

/-- The syntax table state (`m4_syntax_table`).  `orig` is the default
classification vector, `table` the current one; both map a byte to its
entry and are only meaningful on bytes below 256. -/
structure m4_syntax_table where
  orig : Nat → Nat
  table : Nat → Nat
  quote : m4_string_pair
  comm : m4_string_pair
  is_single_quotes : Bool
  is_single_comments : Bool
  is_macro_escaped : Bool
  syntax_age : Nat
  quote_age : Nat
  cached_quote : Option m4_string_pair
  cached_lquote : Nat
  cached_rquote : Nat

/-- Modelled from the spec: the has-category query (named m4_has_ syntax in
the C header, which is not part of src); spec section 6 item 4 defines it as
"true if the entry bitwise-ANDs with the requested bits". -/
def m4_has_syntax_bits (s : m4_syntax_table) (ch code : Nat) : Bool :=
  decide (s.table ch &&& code ≠ 0)

/-- Entry-level effect of `add_syntax_attribute`: a mask code is ORed in, a
basis code replaces the basis while preserving the mask bits. -/
def add_attr (entry code : Nat) : Nat :=
  if code &&& M4_SYNTAX_MASKS ≠ 0 then entry ||| code
  else (entry &&& M4_SYNTAX_MASKS) ||| code

/-- Entry-level effect of `remove_syntax_attribute`: `entry &= ~code`. -/
def remove_attr (entry code : Nat) : Nat := entry &&& not32 code

/-- Pointwise update of a classification vector. -/
def update_entry (t : Nat → Nat) (ch v : Nat) : Nat → Nat :=
  fun c => if c = ch then v else t c

/-- `add_syntax_attribute` from syntax.c. -/
def add_syntax_attribute (s : m4_syntax_table) (ch code : Nat) : m4_syntax_table :=
  { s with table := update_entry s.table ch (add_attr (s.table ch) code) }

/-- `remove_syntax_attribute` from syntax.c (only legal for mask codes). -/
def remove_syntax_attribute (s : m4_syntax_table) (ch code : Nat) : m4_syntax_table :=
  { s with table := update_entry s.table ch (remove_attr (s.table ch) code) }

/-- The `while ((ch = to_uchar (*chars++)))` loop of `add_syntax_set`. -/
def add_syntax_chars (s : m4_syntax_table) (chars : List Nat) (code : Nat) :
    m4_syntax_table :=
  match chars with
  | [] => s
  | ch :: rest =>
    if ch = 0 then s else add_syntax_chars (add_syntax_attribute s ch code) rest code

/-- `add_syntax_set` from syntax.c. -/
def add_syntax_set (s : m4_syntax_table) (chars : List Nat) (code : Nat) :
    m4_syntax_table :=
  if chars.headD 0 = 0 then s
  else
    add_syntax_chars
      (if code = M4_SYNTAX_ESCAPE then { s with is_macro_escaped := true } else s)
      chars code

/-- The character loop of `subtract_syntax_set`. -/
def subtract_syntax_chars (s : m4_syntax_table) (chars : List Nat) (code : Nat) :
    m4_syntax_table :=
  match chars with
  | [] => s
  | ch :: rest =>
    if ch = 0 then s
    else
      subtract_syntax_chars
        (if code &&& M4_SYNTAX_MASKS ≠ 0 then remove_syntax_attribute s ch code
         else if m4_has_syntax_bits s ch code then add_syntax_attribute s ch M4_SYNTAX_OTHER
         else s)
        rest code

/-- One iteration body of the checker scans: the second `if` of the loop in
`check_is_single_quotes` / `check_is_single_comments` (the `codeB` test),
returning the updated candidates and `false` on `break`. -/
def pair_scan_step2 (s : m4_syntax_table) (codeB : Nat) (ch : Nat) (a b : Int) :
    Int × Int × Bool :=
  if m4_has_syntax_bits s ch codeB then
    if b = -1 then (a, (ch : Int), true) else (a, b, false)
  else (a, b, true)

/-- One full iteration of the checker scans: the `codeA` test followed, when
no break occurs, by the `codeB` test. -/
def pair_scan_step (s : m4_syntax_table) (codeA codeB : Nat) (ch : Nat) (a b : Int) :
    Int × Int × Bool :=
  if m4_has_syntax_bits s ch codeA then
    if a = -1 then pair_scan_step2 s codeB ch (ch : Int) b
    else (a, b, false)
  else pair_scan_step2 s codeB ch a b

/-- The 255-down-to-0 scan of the checkers, with early exit on break. -/
def pair_scan (s : m4_syntax_table) (codeA codeB : Nat) :
    List Nat → Int → Int → Int × Int × Bool
  | [], a, b => (a, b, true)
  | ch :: rest, a, b =>
    match pair_scan_step s codeA codeB ch a b with
    | (a2, b2, true) => pair_scan s codeA codeB rest a2 b2
    | (a2, b2, false) => (a2, b2, false)

/-- `check_is_single_quotes` from syntax.c.  The C function returns the flag;
callers use it for its effect on the table state, so the state is returned. -/
def check_is_single_quotes (s : m4_syntax_table) : m4_syntax_table :=
  if s.is_single_quotes = false then s
  else if m4_has_syntax_bits s (s.quote.str1.headD 0) M4_SYNTAX_LQUOTE
          && m4_has_syntax_bits s (s.quote.str2.headD 0) M4_SYNTAX_RQUOTE then s
  else
    match pair_scan s M4_SYNTAX_LQUOTE M4_SYNTAX_RQUOTE
        (List.range 256).reverse (-1) (-1) with
    | (lquote, rquote, completed) =>
      let s1 := if completed then s else { s with is_single_quotes := false }
      if lquote = -1 ∨ rquote = -1 then { s1 with is_single_quotes := false }
      else if s1.is_single_quotes then
        { s1 with quote := { s1.quote with
            str1 := lquote.toNat :: s1.quote.str1.tail,
            str2 := rquote.toNat :: s1.quote.str2.tail } }
      else s1

/-- `check_is_single_comments` from syntax.c. -/
def check_is_single_comments (s : m4_syntax_table) : m4_syntax_table :=
  if s.is_single_comments = false then s
  else if m4_has_syntax_bits s (s.comm.str1.headD 0) M4_SYNTAX_BCOMM
          && m4_has_syntax_bits s (s.comm.str2.headD 0) M4_SYNTAX_ECOMM then s
  else
    match pair_scan s M4_SYNTAX_BCOMM M4_SYNTAX_ECOMM
        (List.range 256).reverse (-1) (-1) with
    | (bcomm, ecomm, completed) =>
      let s1 := if completed then s else { s with is_single_comments := false }
      if bcomm = -1 ∨ ecomm = -1 then { s1 with is_single_comments := false }
      else if s1.is_single_comments then
        { s1 with comm := { s1.comm with
            str1 := bcomm.toNat :: s1.comm.str1.tail,
            str2 := ecomm.toNat :: s1.comm.str2.tail } }
      else s1

/-- `check_is_macro_escaped` from syntax.c: scan every byte for the ESCAPE
basis and set the flag accordingly (the C loop breaks at the first hit,
which is exactly `List.any`). -/
def check_is_macro_escaped (s : m4_syntax_table) : m4_syntax_table :=
  { s with is_macro_escaped :=
      (List.range 256).reverse.any fun ch => m4_has_syntax_bits s ch M4_SYNTAX_ESCAPE }

/-- `subtract_syntax_set` from syntax.c: the character loop followed by the
cleanup `switch` that reruns only the relevant checker. -/
def subtract_syntax_set (s : m4_syntax_table) (chars : List Nat) (code : Nat) :
    m4_syntax_table :=
  if chars.headD 0 = 0 then s
  else
    let s1 := subtract_syntax_chars s chars code
    if code = M4_SYNTAX_ESCAPE then
      if s1.is_macro_escaped then check_is_macro_escaped s1 else s1
    else if code = M4_SYNTAX_LQUOTE ∨ code = M4_SYNTAX_RQUOTE then
      if s1.is_single_quotes then check_is_single_quotes s1 else s1
    else if code = M4_SYNTAX_BCOMM ∨ code = M4_SYNTAX_ECOMM then
      if s1.is_single_comments then check_is_single_comments s1 else s1
    else s1

/-- Per-byte body of the 0..255 sweep in `set_syntax_set`: clear the mask for
mask codes, reset a byte carrying a basis code to OTHER.  The C sweep touches
each byte independently, so it is a pointwise table update. -/
def set_syntax_sweep_entry (s : m4_syntax_table) (code ch : Nat) : Nat :=
  if code = M4_SYNTAX_RQUOTE ∨ code = M4_SYNTAX_ECOMM then
    remove_attr (s.table ch) code
  else if m4_has_syntax_bits s ch code then add_attr (s.table ch) M4_SYNTAX_OTHER
  else s.table ch

/-- `set_syntax_set` from syntax.c: sweep all 256 bytes, install the code on
the given characters, then run all three checkers. -/
def set_syntax_set (s : m4_syntax_table) (chars : List Nat) (code : Nat) :
    m4_syntax_table :=
  let s1 := { s with table :=
    fun ch => if ch < 256 then set_syntax_sweep_entry s code ch else s.table ch }
  let s2 := add_syntax_chars s1 chars code
  check_is_single_comments (check_is_single_quotes (check_is_macro_escaped s2))

/-- Per-byte body of the 0..255 sweep in `reset_syntax_set`: RQUOTE only on
the apostrophe, ECOMM only on newline, a basis code restored from `orig` on
every byte whose default is the code or which currently carries it. -/
def reset_syntax_sweep_entry (s : m4_syntax_table) (code ch : Nat) : Nat :=
  if code = M4_SYNTAX_RQUOTE then
    if ch = 39 then add_attr (s.table ch) code else remove_attr (s.table ch) code
  else if code = M4_SYNTAX_ECOMM then
    if ch = 10 then add_attr (s.table ch) code else remove_attr (s.table ch) code
  else if s.orig ch = code ∨ m4_has_syntax_bits s ch code then
    add_attr (s.table ch) (s.orig ch)
  else s.table ch

/-- `reset_syntax_set` from syntax.c: sweep all 256 bytes restoring the code
to its default state, then run all three checkers. -/
def reset_syntax_set (s : m4_syntax_table) (code : Nat) : m4_syntax_table :=
  let s1 := { s with table :=
    fun ch => if ch < 256 then reset_syntax_sweep_entry s code ch else s.table ch }
  check_is_single_comments (check_is_single_quotes (check_is_macro_escaped s1))

/-- The locally computed syntax age of `set_quote_age`: 0 on reset, the
pre-incremented stored counter when an arbitrary change occurred below the
saturation bound, the stored counter unchanged otherwise. -/
def local_syntax_age (s : m4_syntax_table) (reset change : Bool) : Nat :=
  if reset = true then 0
  else if change = true ∧ s.syntax_age < 0xffff then s.syntax_age + 1
  else s.syntax_age

/-- The category bits that make a quote delimiter byte unsafe in
`set_quote_age`. -/
def quote_unsafe_bits : Nat :=
  M4_SYNTAX_ALPHA ||| M4_SYNTAX_NUM ||| M4_SYNTAX_OPEN ||| M4_SYNTAX_COMMA
    ||| M4_SYNTAX_CLOSE ||| M4_SYNTAX_SPACE

/-- The category bits that make the begin-comment byte unsafe in
`set_quote_age`. -/
def comm_unsafe_bits : Nat :=
  M4_SYNTAX_OPEN ||| M4_SYNTAX_COMMA ||| M4_SYNTAX_CLOSE

/-- The safety condition of `set_quote_age`, checked after the stored
counter has been updated. -/
def quote_age_ok (s : m4_syntax_table) (la : Nat) : Prop :=
  la < 0xffff ∧ s.is_single_quotes = true
    ∧ m4_has_syntax_bits s (s.quote.str1.headD 0) quote_unsafe_bits = false
    ∧ m4_has_syntax_bits s (s.quote.str2.headD 0) quote_unsafe_bits = false
    ∧ s.quote.str1.headD 0 ≠ s.quote.str2.headD 0
    ∧ (s.comm.len1 = 0
        ∨ (s.comm.str1.headD 0 ≠ s.quote.str2.headD 0
            ∧ m4_has_syntax_bits s (s.comm.str1.headD 0) comm_unsafe_bits = false))
    ∧ m4_has_syntax_bits s 44 M4_SYNTAX_COMMA = true

instance (s : m4_syntax_table) (la : Nat) : Decidable (quote_age_ok s la) := by
  unfold quote_age_ok; infer_instance

/-- The store side of computing the local syntax age: the
`++syntax->syntax_age` of the change case writes the incremented counter
back; the other two branches leave the stored counter alone. -/
def bump_syntax_age (s : m4_syntax_table) (reset change : Bool) : m4_syntax_table :=
  if reset = false ∧ change = true ∧ s.syntax_age < 0xffff then
    { s with syntax_age := s.syntax_age + 1 }
  else s

/-- `set_quote_age` from syntax.c.  The stored counter is pre-incremented
exactly in the change case; if the safety condition holds the quote age
packs the local age with the two quote bytes, else it is zero. -/
def set_quote_age (s : m4_syntax_table) (reset change : Bool) : m4_syntax_table :=
  let la := local_syntax_age s reset change
  let s1 := bump_syntax_age s reset change
  if quote_age_ok s1 la then
    { s1 with quote_age :=
        ((la <<< 16) ||| ((s1.quote.str1.headD 0 &&& 0xff) <<< 8))
          ||| (s1.quote.str2.headD 0 &&& 0xff) }
  else { s1 with quote_age := 0 }

/-- `m4_syntax_code` from syntax.c: the key byte to category code mapping,
`-1` for an unknown key. -/
def m4_syntax_code (ch : Nat) : Int :=
  if ch = 73 ∨ ch = 105 then (M4_SYNTAX_IGNORE : Int)
  else if ch = 64 then (M4_SYNTAX_ESCAPE : Int)
  else if ch = 87 ∨ ch = 119 then (M4_SYNTAX_ALPHA : Int)
  else if ch = 76 ∨ ch = 108 then (M4_SYNTAX_LQUOTE : Int)
  else if ch = 66 ∨ ch = 98 then (M4_SYNTAX_BCOMM : Int)
  else if ch = 79 ∨ ch = 111 then (M4_SYNTAX_OTHER : Int)
  else if ch = 68 ∨ ch = 100 then (M4_SYNTAX_NUM : Int)
  else if ch = 36 then (M4_SYNTAX_DOLLAR : Int)
  else if ch = 123 then (M4_SYNTAX_LBRACE : Int)
  else if ch = 125 then (M4_SYNTAX_RBRACE : Int)
  else if ch = 83 ∨ ch = 115 then (M4_SYNTAX_SPACE : Int)
  else if ch = 65 ∨ ch = 97 then (M4_SYNTAX_ACTIVE : Int)
  else if ch = 40 then (M4_SYNTAX_OPEN : Int)
  else if ch = 41 then (M4_SYNTAX_CLOSE : Int)
  else if ch = 44 then (M4_SYNTAX_COMMA : Int)
  else if ch = 82 ∨ ch = 114 then (M4_SYNTAX_RQUOTE : Int)
  else if ch = 69 ∨ ch = 101 then (M4_SYNTAX_ECOMM : Int)
  else -1

/-- Modelled from the spec: `m4__quote_uncache` is a one-line helper of the
missing header that clears the memoized quote-pair copy (spec section 4.6:
"the memoization is invalidated whenever any verb or installer runs"). -/
def m4__quote_uncache (s : m4_syntax_table) : m4_syntax_table :=
  { s with cached_quote := none }

/-- The changesyntax entry point (named m4_set_ syntax in syntax.c): the
null key restores the default table,
delimiters, flags and quote age; otherwise the key is mapped to a code
(failure returns `-1` with the state untouched) and the action dispatches to
one of the four verbs, followed by `set_quote_age (reset := false)
(change := true)` and a cache invalidation.  Returns the C return value
paired with the resulting state. -/
def m4_set_syntax_table (s : m4_syntax_table) (key action : Nat)
    (chars : Option (List Nat)) : Int × m4_syntax_table :=
  if key = 0 then
    let s1 := { s with
      table := fun ch => if ch < 256 then s.orig ch else s.table ch,
      quote := ⟨DEF_LQUOTE, 1, DEF_RQUOTE, 1⟩,
      comm := ⟨DEF_BCOMM, 1, DEF_ECOMM, 1⟩ }
    let s2 := add_syntax_attribute s1 (s1.quote.str2.headD 0) M4_SYNTAX_RQUOTE
    let s3 := add_syntax_attribute s2 (s2.comm.str2.headD 0) M4_SYNTAX_ECOMM
    let s4 := { s3 with
      is_single_quotes := true,
      is_single_comments := true,
      is_macro_escaped := false }
    (0, set_quote_age s4 true false)
  else
    let code := m4_syntax_code key
    if code < 0 then (-1, s)
    else
      let s1 :=
        if action = 43 then add_syntax_set s (chars.getD []) code.toNat
        else if action = 45 then subtract_syntax_set s (chars.getD []) code.toNat
        else if action = 61 then set_syntax_set s (chars.getD []) code.toNat
        else if action = 0 then reset_syntax_set s code.toNat
        else s
      (code, m4__quote_uncache (set_quote_age s1 false true))

/-- Per-byte body of the 0..255 sweep in `m4_set_quotes`: a byte carrying
LQUOTE is reverted to its default basis (OTHER when its default is LQUOTE),
then the RQUOTE mask is cleared.  The second test reads the entry after the
first update, as the two successive statements of the C loop do. -/
def quotes_sweep_entry (s : m4_syntax_table) (ch : Nat) : Nat :=
  let e1 := if m4_has_syntax_bits s ch M4_SYNTAX_LQUOTE then
      add_attr (s.table ch)
        (if s.orig ch = M4_SYNTAX_LQUOTE then M4_SYNTAX_OTHER else s.orig ch)
    else s.table ch
  if e1 &&& M4_SYNTAX_RQUOTE ≠ 0 then remove_attr e1 M4_SYNTAX_RQUOTE else e1

/-- The argument-defaulting prologue of `m4_set_quotes`: a null left quote
means both defaults; a null or emptied right quote becomes the apostrophe
unless the left quote is empty. -/
def quotes_defaults (lqo rqo : Option (List Nat)) : List Nat × List Nat :=
  (if lqo = none then DEF_LQUOTE else lqo.getD [],
    if lqo = none then DEF_RQUOTE
    else if rqo = none ∨ ((lqo.getD []).headD 0 ≠ 0 ∧ (rqo.getD []).headD 0 = 0) then
      DEF_RQUOTE
    else rqo.getD [])

/-- `m4_set_quotes` from syntax.c: argument defaulting, a no-op short
circuit when the pair is unchanged, replacement of the owned strings,
recomputation of `is_single_quotes`, the LQUOTE/RQUOTE sweep, conditional
reinstallation, the macro-escape recheck, and `set_quote_age` with reset and
change both false. -/
def m4_set_quotes (s : m4_syntax_table) (lqo rqo : Option (List Nat)) :
    m4_syntax_table :=
  let lq := (quotes_defaults lqo rqo).1
  let rq := (quotes_defaults lqo rqo).2
  if s.quote.str1 = lq ∧ s.quote.str2 = rq then s
  else
    let s1 := { s with quote := ⟨lq, lq.length, rq, rq.length⟩ }
    let isq :=
      decide (s1.quote.len1 = 1 ∧ s1.quote.len2 = 1)
        && !(m4_has_syntax_bits s1 (s1.quote.str1.headD 0)
              (M4_SYNTAX_IGNORE ||| M4_SYNTAX_ESCAPE ||| M4_SYNTAX_ALPHA
                ||| M4_SYNTAX_NUM))
    let s2 := { s1 with is_single_quotes := isq }
    let s3 := { s2 with table :=
      fun ch => if ch < 256 then quotes_sweep_entry s2 ch else s2.table ch }
    let s4 := if s3.is_single_quotes then
        add_syntax_attribute
          (add_syntax_attribute s3 (s3.quote.str1.headD 0) M4_SYNTAX_LQUOTE)
          (s3.quote.str2.headD 0) M4_SYNTAX_RQUOTE
      else s3
    let s5 := if s4.is_macro_escaped then check_is_macro_escaped s4 else s4
    set_quote_age s5 false false

/-- Per-byte body of the 0..255 sweep in `m4_set_comment`, symmetric to
`quotes_sweep_entry` with BCOMM/ECOMM. -/
def comment_sweep_entry (s : m4_syntax_table) (ch : Nat) : Nat :=
  let e1 := if m4_has_syntax_bits s ch M4_SYNTAX_BCOMM then
      add_attr (s.table ch)
        (if s.orig ch = M4_SYNTAX_BCOMM then M4_SYNTAX_OTHER else s.orig ch)
    else s.table ch
  if e1 &&& M4_SYNTAX_ECOMM ≠ 0 then remove_attr e1 M4_SYNTAX_ECOMM else e1

/-- `m4_set_comment` from syntax.c: as `m4_set_quotes` but a null begin
comment disables comments (both strings empty), the defaulted end comment is
the newline, and LQUOTE joins the precedence-blocking categories for
`is_single_comments`. -/
def m4_set_comment (s : m4_syntax_table) (bco eco : Option (List Nat)) :
    m4_syntax_table :=
  let bc := if bco = none then ([] : List Nat) else bco.getD []
  let ec := if bco = none then ([] : List Nat)
    else if eco = none ∨ ((bco.getD []).headD 0 ≠ 0 ∧ (eco.getD []).headD 0 = 0) then
      DEF_ECOMM
    else eco.getD []
  if s.comm.str1 = bc ∧ s.comm.str2 = ec then s
  else
    let s1 := { s with comm := ⟨bc, bc.length, ec, ec.length⟩ }
    let isc :=
      decide (s1.comm.len1 = 1 ∧ s1.comm.len2 = 1)
        && !(m4_has_syntax_bits s1 (s1.comm.str1.headD 0)
              (M4_SYNTAX_IGNORE ||| M4_SYNTAX_ESCAPE ||| M4_SYNTAX_ALPHA
                ||| M4_SYNTAX_NUM ||| M4_SYNTAX_LQUOTE))
    let s2 := { s1 with is_single_comments := isc }
    let s3 := { s2 with table :=
      fun ch => if ch < 256 then comment_sweep_entry s2 ch else s2.table ch }
    let s4 := if s3.is_single_comments then
        add_syntax_attribute
          (add_syntax_attribute s3 (s3.comm.str1.headD 0) M4_SYNTAX_BCOMM)
          (s3.comm.str2.headD 0) M4_SYNTAX_ECOMM
      else s3
    let s5 := if s4.is_macro_escaped then check_is_macro_escaped s4 else s4
    set_quote_age s5 false false

/-- C-locale `isspace` on a byte. -/
def isspace (ch : Nat) : Bool := ch = 32 || (9 ≤ ch && ch ≤ 13)

/-- C-locale `isalpha` on a byte. -/
def isalpha (ch : Nat) : Bool := (65 ≤ ch && ch ≤ 90) || (97 ≤ ch && ch ≤ 122)

/-- C-locale `isdigit` on a byte. -/
def isdigit (ch : Nat) : Bool := 48 ≤ ch && ch ≤ 57

/-- The default classification of a byte, from the `switch` in
`m4_syntax_create` (the NUL byte falls through to the default arm and is
classed OTHER). -/
def default_syntax_entry (ch : Nat) : Nat :=
  if ch = 40 then M4_SYNTAX_OPEN
  else if ch = 41 then M4_SYNTAX_CLOSE
  else if ch = 44 then M4_SYNTAX_COMMA
  else if ch = 36 then M4_SYNTAX_DOLLAR
  else if ch = 123 then M4_SYNTAX_LBRACE
  else if ch = 125 then M4_SYNTAX_RBRACE
  else if ch = 96 then M4_SYNTAX_LQUOTE
  else if ch = 35 then M4_SYNTAX_BCOMM
  else if isspace ch then M4_SYNTAX_SPACE
  else if isalpha ch || ch = 95 then M4_SYNTAX_ALPHA
  else if isdigit ch then M4_SYNTAX_NUM
  else M4_SYNTAX_OTHER

/-- `m4_syntax_create` from syntax.c: zero-initialised storage, the default
vector, then the full reset path of `m4_set_syntax_table` with a null key. -/
def m4_syntax_create : m4_syntax_table :=
  let s0 : m4_syntax_table := {
    orig := fun ch => if ch < 256 then default_syntax_entry ch else 0,
    table := fun _ => 0,
    quote := ⟨[], 0, [], 0⟩,
    comm := ⟨[], 0, [], 0⟩,
    is_single_quotes := false,
    is_single_comments := false,
    is_macro_escaped := false,
    syntax_age := 0,
    quote_age := 0,
    cached_quote := none,
    cached_lquote := 0,
    cached_rquote := 0 }
  (m4_set_syntax_table s0 0 0 none).2

/-- `m4__quote_cache` from syntax.c.  A null quote pair returns null; a
non-zero age refreshes the two backing bytes from the age and hands out the
static one-byte pair view; a zero age with a null obstack returns the pair
unchanged; otherwise the pair is copied once onto the obstack and memoized.
The obstack argument is modelled by its nullness. -/
def m4__quote_cache (s : m4_syntax_table) (obs : Bool) (age : Nat)
    (quotes : Option m4_string_pair) : Option m4_string_pair × m4_syntax_table :=
  match quotes with
  | none => (none, s)
  | some q =>
    if age ≠ 0 then
      let s1 := { s with
        cached_lquote := (age >>> 8) &&& 0xff,
        cached_rquote := age &&& 0xff }
      (some ⟨[s1.cached_lquote], 1, [s1.cached_rquote], 1⟩, s1)
    else if obs = false then (some q, s)
    else
      match s.cached_quote with
      | some cq => (some cq, s)
      | none =>
        let cq : m4_string_pair := ⟨q.str1, q.len1, q.str2, q.len2⟩
        (some cq, { s with cached_quote := some cq })

/-! ### Bit-level helper lemmas -/

theorem and_not32_of_disjoint {e m : Nat} (hb : e < 2 ^ 32) (h0 : e &&& m = 0) :
    e &&& not32 m = e := by
  apply Nat.eq_of_testBit_eq
  intro i
  rw [Nat.testBit_and]
  cases he : e.testBit i with
  | false => simp
  | true =>
    have hi : i < 32 := by
      by_contra h
      have hlt : e < 2 ^ i :=
        lt_of_lt_of_le hb (Nat.pow_le_pow_right (by norm_num) (le_of_not_lt h))
      rw [Nat.testBit_lt_two_pow hlt] at he
      exact Bool.noConfusion he
    have hm : m.testBit i = false := by
      have h1 : (e &&& m).testBit i = false := by rw [h0]; simp
      rw [Nat.testBit_and, he] at h1
      simpa using h1
    have h32 : (0xffffffff : Nat) = 2 ^ 32 - 1 := by norm_num
    rw [not32, h32, Nat.testBit_xor, Nat.testBit_two_pow_sub_one, hm]
    simp [hi]

theorem pack_shiftRight_16 {a b c2 : Nat} (hb : b < 256) (hc : c2 < 256) :
    (((a <<< 16) ||| (b <<< 8)) ||| c2) >>> 16 = a := by
  have hc8 : c2 < 2 ^ 8 := by norm_num at hc ⊢; omega
  have h1 : (b <<< 8) ||| c2 = 2 ^ 8 * b + c2 := by
    rw [Nat.shiftLeft_eq, Nat.mul_comm, ← Nat.mul_add_lt_is_or hc8 b]
  have h2 : 2 ^ 8 * b + c2 < 2 ^ 16 := by norm_num; omega
  rw [Nat.or_assoc, h1, Nat.shiftLeft_eq, Nat.mul_comm,
    ← Nat.mul_add_lt_is_or h2 a, Nat.shiftRight_eq_div_pow,
    Nat.mul_add_div (by norm_num), Nat.div_eq_of_lt h2, Nat.add_zero]

theorem shiftRight_16_eq_zero {x : Nat} (h : x < 2 ^ 16) : x >>> 16 = 0 := by
  rw [Nat.shiftRight_eq_div_pow]
  exact Nat.div_eq_of_lt h

theorem and_255_lt (x : Nat) : x &&& 0xff < 256 :=
  Nat.lt_succ_of_le Nat.and_le_right

/-! ### Frame lemmas: which state components each helper leaves alone -/

/-- The two states agree on everything but the current classification
vector. -/
def table_only_change (t s : m4_syntax_table) : Prop :=
  t.orig = s.orig ∧ t.quote = s.quote ∧ t.comm = s.comm
    ∧ t.is_single_quotes = s.is_single_quotes
    ∧ t.is_single_comments = s.is_single_comments
    ∧ t.is_macro_escaped = s.is_macro_escaped
    ∧ t.syntax_age = s.syntax_age ∧ t.quote_age = s.quote_age
    ∧ t.cached_quote = s.cached_quote

theorem table_only_change_refl (s : m4_syntax_table) : table_only_change s s :=
  ⟨rfl, rfl, rfl, rfl, rfl, rfl, rfl, rfl, rfl⟩

theorem table_only_change_trans {u t s : m4_syntax_table}
    (h1 : table_only_change u t) (h2 : table_only_change t s) :
    table_only_change u s := by
  obtain ⟨a1, a2, a3, a4, a5, a6, a7, a8, a9⟩ := h1
  obtain ⟨b1, b2, b3, b4, b5, b6, b7, b8, b9⟩ := h2
  exact ⟨a1.trans b1, a2.trans b2, a3.trans b3, a4.trans b4, a5.trans b5,
    a6.trans b6, a7.trans b7, a8.trans b8, a9.trans b9⟩

theorem add_syntax_attribute_frame (s : m4_syntax_table) (ch code : Nat) :
    table_only_change (add_syntax_attribute s ch code) s :=
  ⟨rfl, rfl, rfl, rfl, rfl, rfl, rfl, rfl, rfl⟩

theorem remove_syntax_attribute_frame (s : m4_syntax_table) (ch code : Nat) :
    table_only_change (remove_syntax_attribute s ch code) s :=
  ⟨rfl, rfl, rfl, rfl, rfl, rfl, rfl, rfl, rfl⟩

theorem add_syntax_chars_frame (chars : List Nat) :
    ∀ (s : m4_syntax_table) (code : Nat),
      table_only_change (add_syntax_chars s chars code) s := by
  induction chars with
  | nil => intro s code; exact table_only_change_refl s
  | cons ch rest ih =>
    intro s code
    unfold add_syntax_chars
    split
    · exact table_only_change_refl s
    · exact table_only_change_trans (ih _ code) (add_syntax_attribute_frame s ch code)

theorem subtract_syntax_chars_frame (chars : List Nat) :
    ∀ (s : m4_syntax_table) (code : Nat),
      table_only_change (subtract_syntax_chars s chars code) s := by
  induction chars with
  | nil => intro s code; exact table_only_change_refl s
  | cons ch rest ih =>
    intro s code
    unfold subtract_syntax_chars
    split
    · exact table_only_change_refl s
    · refine table_only_change_trans (ih _ code) ?_
      split
      · exact remove_syntax_attribute_frame s ch code
      · split
        · exact add_syntax_attribute_frame s ch M4_SYNTAX_OTHER
        · exact table_only_change_refl s

/-! ### Claim C6: defaults of a freshly created syntax table -/

/-- C6: a freshly created syntax table has left quote backtick, right quote
apostrophe, begin comment hash, end comment newline; `is_single_quotes` and
`is_single_comments` are true and `is_macro_escaped` is false; and the quote
age is non-zero with upper 16 bits 0 and lower 16 bits
`(0x60 <<< 8) ||| 0x27`. -/
theorem C6_fresh_table_defaults :
    m4_syntax_create.quote.str1 = [96] ∧ m4_syntax_create.quote.len1 = 1
    ∧ m4_syntax_create.quote.str2 = [39] ∧ m4_syntax_create.quote.len2 = 1
    ∧ m4_syntax_create.comm.str1 = [35] ∧ m4_syntax_create.comm.len1 = 1
    ∧ m4_syntax_create.comm.str2 = [10] ∧ m4_syntax_create.comm.len2 = 1
    ∧ m4_syntax_create.is_single_quotes = true
    ∧ m4_syntax_create.is_single_comments = true
    ∧ m4_syntax_create.is_macro_escaped = false
    ∧ m4_syntax_create.quote_age ≠ 0
    ∧ m4_syntax_create.quote_age >>> 16 = 0
    ∧ m4_syntax_create.quote_age &&& 0xffff = ((0x60 <<< 8) ||| 0x27) := by
  decide

/-! ### Claim C10: quote cache with a null quote pair -/

/-- C10: for every age value and every obstack argument, `m4__quote_cache`
called with a null quote-pair argument returns null and leaves the syntax
table unmodified. -/
theorem C10_quote_cache_null_quotes (s : m4_syntax_table) (obs : Bool) (age : Nat) :
    m4__quote_cache s obs age none = (none, s) := rfl

/-! ### Claim C8: add then remove of a mask code -/

/-- C8 counterexample: on the fresh table the apostrophe already carries the
RQUOTE mask, and `add` followed by `remove` of RQUOTE on it clears the mask
instead of restoring the entry, refuting the claim for arbitrary table
states. -/
theorem C8_counterexample :
    (remove_syntax_attribute
        (add_syntax_attribute m4_syntax_create 39 M4_SYNTAX_RQUOTE)
        39 M4_SYNTAX_RQUOTE).table 39
      ≠ m4_syntax_create.table 39 := by
  decide

/-- C8 amended: for a mask code (RQUOTE or ECOMM), `add` followed by
`remove` of that code on the same byte restores the classification
entry provided the entry (a value of C type `int`, hence below `2 ^ 32`) did
not already carry the mask; when it did, the pair of operations clears it. -/
theorem C8_mask_add_remove_restores (s : m4_syntax_table) (ch m : Nat)
    (hm : m = M4_SYNTAX_RQUOTE ∨ m = M4_SYNTAX_ECOMM)
    (hb : s.table ch < 2 ^ 32) (h0 : s.table ch &&& m = 0) :
    (remove_syntax_attribute (add_syntax_attribute s ch m) ch m).table ch
      = s.table ch := by
  have hmask : m &&& M4_SYNTAX_MASKS ≠ 0 := by
    rcases hm with rfl | rfl <;> decide
  have hdisj : m &&& not32 m = 0 := by
    rcases hm with rfl | rfl <;> decide
  have hup : ∀ (t : Nat → Nat) (v : Nat), update_entry t ch v ch = v := by
    intro t v; simp [update_entry]
  simp only [remove_syntax_attribute, add_syntax_attribute, hup]
  rw [add_attr, if_pos hmask, remove_attr, Nat.and_distrib_right, hdisj,
    Nat.or_zero, and_not32_of_disjoint hb h0]

/-- C8 witness: the amended theorem applied to the fresh table at the
exclamation-mark byte, which does not carry RQUOTE. -/
theorem C8_witness :
    m4_syntax_create.table 33 &&& M4_SYNTAX_RQUOTE = 0
    ∧ (remove_syntax_attribute
          (add_syntax_attribute m4_syntax_create 33 M4_SYNTAX_RQUOTE)
          33 M4_SYNTAX_RQUOTE).table 33
        = m4_syntax_create.table 33 :=
  ⟨by decide,
    C8_mask_add_remove_restores m4_syntax_create 33 M4_SYNTAX_RQUOTE
      (Or.inl rfl) (by decide) (by decide)⟩

/-! ### Claim C9: unknown category keys -/

/-- The key bytes accepted by `m4_syntax_code` (spec section 4.7). -/
def syntax_key_chars : List Nat :=
  [73, 105, 64, 87, 119, 76, 108, 66, 98, 79, 111, 68, 100, 36, 123, 125,
    83, 115, 65, 97, 40, 41, 44, 82, 114, 69, 101]

/-- C9: for every key byte outside the accepted mapping (and distinct from
the null key, which selects the reset path), `m4_syntax_code` returns the
negative sentinel and `m4_set_syntax_table` returns the sentinel with the entire
table state unchanged, for every action and byte string. -/
theorem C9_unknown_key_rejected (s : m4_syntax_table) (key action : Nat)
    (chars : Option (List Nat)) (hk : key ∉ syntax_key_chars) (h0 : key ≠ 0) :
    m4_syntax_code key = -1 ∧ m4_set_syntax_table s key action chars = (-1, s) := by
  have n1 : ¬(key = 73 ∨ key = 105) := by rintro (rfl | rfl) <;> exact hk (by decide)
  have n2 : ¬(key = 64) := by rintro rfl; exact hk (by decide)
  have n3 : ¬(key = 87 ∨ key = 119) := by rintro (rfl | rfl) <;> exact hk (by decide)
  have n4 : ¬(key = 76 ∨ key = 108) := by rintro (rfl | rfl) <;> exact hk (by decide)
  have n5 : ¬(key = 66 ∨ key = 98) := by rintro (rfl | rfl) <;> exact hk (by decide)
  have n6 : ¬(key = 79 ∨ key = 111) := by rintro (rfl | rfl) <;> exact hk (by decide)
  have n7 : ¬(key = 68 ∨ key = 100) := by rintro (rfl | rfl) <;> exact hk (by decide)
  have n8 : ¬(key = 36) := by rintro rfl; exact hk (by decide)
  have n9 : ¬(key = 123) := by rintro rfl; exact hk (by decide)
  have n10 : ¬(key = 125) := by rintro rfl; exact hk (by decide)
  have n11 : ¬(key = 83 ∨ key = 115) := by rintro (rfl | rfl) <;> exact hk (by decide)
  have n12 : ¬(key = 65 ∨ key = 97) := by rintro (rfl | rfl) <;> exact hk (by decide)
  have n13 : ¬(key = 40) := by rintro rfl; exact hk (by decide)
  have n14 : ¬(key = 41) := by rintro rfl; exact hk (by decide)
  have n15 : ¬(key = 44) := by rintro rfl; exact hk (by decide)
  have n16 : ¬(key = 82 ∨ key = 114) := by rintro (rfl | rfl) <;> exact hk (by decide)
  have n17 : ¬(key = 69 ∨ key = 101) := by rintro (rfl | rfl) <;> exact hk (by decide)
  have hcode : m4_syntax_code key = -1 := by
    unfold m4_syntax_code
    rw [if_neg n1, if_neg n2, if_neg n3, if_neg n4, if_neg n5, if_neg n6,
      if_neg n7, if_neg n8, if_neg n9, if_neg n10, if_neg n11, if_neg n12,
      if_neg n13, if_neg n14, if_neg n15, if_neg n16, if_neg n17]
  refine ⟨hcode, ?_⟩
  unfold m4_set_syntax_table
  rw [if_neg h0, hcode, if_pos (by norm_num : (-1 : Int) < 0)]

/-- C9 witness: the question-mark byte is not a category key. -/
theorem C9_witness :
    m4_syntax_code 63 = -1
    ∧ m4_set_syntax_table m4_syntax_create 63 43 (some [33]) = (-1, m4_syntax_create) :=
  C9_unknown_key_rejected m4_syntax_create 63 43 (some [33]) (by decide) (by decide)

/-! ### Claim C1: the quote-age safety invariant -/

/-- The quote-age safety invariant: a non-zero quote age implies the six
safety predicates of `set_quote_age` (with the syntax age that was used
recoverable as the upper 16 bits) and the packing equation. -/
def quote_age_safe (s : m4_syntax_table) : Prop :=
  s.quote_age ≠ 0 →
    quote_age_ok s (s.quote_age >>> 16)
    ∧ s.quote_age = (((s.quote_age >>> 16) <<< 16)
        ||| ((s.quote.str1.headD 0 &&& 0xff) <<< 8))
        ||| (s.quote.str2.headD 0 &&& 0xff)

instance (s : m4_syntax_table) : Decidable (quote_age_safe s) := by
  unfold quote_age_safe; infer_instance

/-- A state whose quote age is the packing of a safe local age with its own
quote bytes satisfies the quote-age safety invariant. -/
theorem quote_age_safe_pack (t : m4_syntax_table) (la : Nat)
    (hok : quote_age_ok t la) :
    quote_age_safe { t with quote_age :=
      ((la <<< 16) ||| ((t.quote.str1.headD 0 &&& 0xff) <<< 8))
        ||| (t.quote.str2.headD 0 &&& 0xff) } := by
  intro _
  have hsr : (((la <<< 16) ||| ((t.quote.str1.headD 0 &&& 0xff) <<< 8))
      ||| (t.quote.str2.headD 0 &&& 0xff)) >>> 16 = la :=
    pack_shiftRight_16 (and_255_lt _) (and_255_lt _)
  constructor
  · show quote_age_ok _ (_ >>> 16)
    dsimp only
    rw [hsr]
    exact hok
  · show _ = ((_ >>> 16) <<< 16 ||| _) ||| _
    dsimp only
    rw [hsr]

/-- A state whose quote age is zero vacuously satisfies the quote-age safety
invariant. -/
theorem quote_age_safe_zero (t : m4_syntax_table) :
    quote_age_safe { t with quote_age := 0 } := by
  intro hne
  exact absurd rfl hne

theorem set_quote_age_safe (s : m4_syntax_table) (r c : Bool) :
    quote_age_safe (set_quote_age s r c) := by
  simp only [set_quote_age]
  split
  case isTrue hok => exact quote_age_safe_pack _ _ hok
  case isFalse => exact quote_age_safe_zero _

/-- Uncaching the quote pair leaves every field inspected by
`quote_age_safe` untouched. -/
theorem quote_age_safe_uncache {s : m4_syntax_table} (h : quote_age_safe s) :
    quote_age_safe (m4__quote_uncache s) := h

/-- C1: after every operation on the syntax table (any changesyntax verb,
`m4_set_quotes`, `m4_set_comment`, or creation), a non-zero stored quote age
implies the six safety predicates of `set_quote_age` and equals the used
syntax age (recoverable as its upper 16 bits, and equal to the locally
computed `local_syntax_age` of the final `set_quote_age` call) packed with
the two single-character quote bytes. -/
theorem C1_quote_age_safety :
    (∀ s r c, quote_age_safe (set_quote_age s r c))
    ∧ (∀ s r c, (set_quote_age s r c).quote_age ≠ 0 →
        (set_quote_age s r c).quote_age >>> 16 = local_syntax_age s r c
        ∧ local_syntax_age s r c < 0xffff)
    ∧ (∀ s key action chars, quote_age_safe s →
        quote_age_safe (m4_set_syntax_table s key action chars).2)
    ∧ (∀ s lq rq, quote_age_safe s → quote_age_safe (m4_set_quotes s lq rq))
    ∧ (∀ s bc ec, quote_age_safe s → quote_age_safe (m4_set_comment s bc ec))
    ∧ quote_age_safe m4_syntax_create := by
  refine ⟨set_quote_age_safe, ?_, ?_, ?_, ?_, ?_⟩
  · intro s r c
    simp only [set_quote_age]
    split
    case isTrue hok =>
      intro _
      exact ⟨pack_shiftRight_16 (and_255_lt _) (and_255_lt _), hok.1⟩
    case isFalse =>
      intro hne
      exact absurd rfl hne
  · intro s key action chars h
    simp only [m4_set_syntax_table]
    repeat' split
    all_goals first
      | exact h
      | exact set_quote_age_safe _ true false
      | exact quote_age_safe_uncache (set_quote_age_safe _ false true)
  · intro s lq rq h
    simp only [m4_set_quotes]
    repeat' split
    all_goals first
      | exact h
      | exact set_quote_age_safe _ false false
  · intro s bc ec h
    simp only [m4_set_comment]
    repeat' split
    all_goals first
      | exact h
      | exact set_quote_age_safe _ false false
  · exact set_quote_age_safe _ true false

/-- C1 witness: the invariant instantiated after one concrete changesyntax
verb on the fresh table, and the used-age equation at a concrete call. -/
theorem C1_witness :
    quote_age_safe (m4_set_syntax_table m4_syntax_create 111 43 (some [33])).2
    ∧ (set_quote_age m4_syntax_create false true).quote_age >>> 16
        = local_syntax_age m4_syntax_create false true :=
  ⟨C1_quote_age_safety.2.2.1 m4_syntax_create 111 43 (some [33]) (by decide),
    (C1_quote_age_safety.2.1 m4_syntax_create false true (by decide)).1⟩

/-! ### Syntax-age frame lemmas -/

theorem table_only_change_syntax_age {t s : m4_syntax_table}
    (h : table_only_change t s) : t.syntax_age = s.syntax_age :=
  h.2.2.2.2.2.2.1

theorem table_only_change_quote {t s : m4_syntax_table}
    (h : table_only_change t s) : t.quote = s.quote :=
  h.2.1

theorem table_only_change_is_single_quotes {t s : m4_syntax_table}
    (h : table_only_change t s) : t.is_single_quotes = s.is_single_quotes :=
  h.2.2.2.1

theorem check_is_macro_escaped_syntax_age (s : m4_syntax_table) :
    (check_is_macro_escaped s).syntax_age = s.syntax_age := rfl

theorem check_is_single_quotes_syntax_age (s : m4_syntax_table) :
    (check_is_single_quotes s).syntax_age = s.syntax_age := by
  unfold check_is_single_quotes
  repeat' split
  all_goals dsimp only
  all_goals repeat' split
  all_goals rfl

theorem check_is_single_comments_syntax_age (s : m4_syntax_table) :
    (check_is_single_comments s).syntax_age = s.syntax_age := by
  unfold check_is_single_comments
  repeat' split
  all_goals dsimp only
  all_goals repeat' split
  all_goals rfl

theorem add_syntax_set_syntax_age (s : m4_syntax_table) (chars : List Nat)
    (code : Nat) : (add_syntax_set s chars code).syntax_age = s.syntax_age := by
  unfold add_syntax_set
  split
  · rfl
  · split
    · exact (table_only_change_syntax_age (add_syntax_chars_frame chars _ code)).trans rfl
    · exact table_only_change_syntax_age (add_syntax_chars_frame chars _ code)

theorem subtract_syntax_set_syntax_age (s : m4_syntax_table) (chars : List Nat)
    (code : Nat) : (subtract_syntax_set s chars code).syntax_age = s.syntax_age := by
  have h1 := table_only_change_syntax_age (subtract_syntax_chars_frame chars s code)
  unfold subtract_syntax_set
  split
  · rfl
  · dsimp only
    repeat' split
    all_goals
      first
        | exact h1
        | (rw [check_is_macro_escaped_syntax_age]; exact h1)
        | (rw [check_is_single_quotes_syntax_age]; exact h1)
        | (rw [check_is_single_comments_syntax_age]; exact h1)

theorem set_syntax_set_syntax_age (s : m4_syntax_table) (chars : List Nat)
    (code : Nat) : (set_syntax_set s chars code).syntax_age = s.syntax_age := by
  simp only [set_syntax_set]
  rw [check_is_single_comments_syntax_age, check_is_single_quotes_syntax_age,
    check_is_macro_escaped_syntax_age]
  exact table_only_change_syntax_age (add_syntax_chars_frame chars _ code)

theorem reset_syntax_set_syntax_age (s : m4_syntax_table) (code : Nat) :
    (reset_syntax_set s code).syntax_age = s.syntax_age := by
  simp only [reset_syntax_set]
  rw [check_is_single_comments_syntax_age, check_is_single_quotes_syntax_age,
    check_is_macro_escaped_syntax_age]

theorem set_quote_age_syntax_age (s : m4_syntax_table) (r c : Bool) :
    (set_quote_age s r c).syntax_age = (bump_syntax_age s r c).syntax_age := by
  simp only [set_quote_age]
  split <;> rfl

theorem bump_syntax_age_reset (s : m4_syntax_table) (c : Bool) :
    bump_syntax_age s true c = s := by
  unfold bump_syntax_age
  rw [if_neg]
  simp

theorem bump_syntax_age_change (s : m4_syntax_table) :
    (bump_syntax_age s false true).syntax_age =
      if s.syntax_age < 0xffff then s.syntax_age + 1 else s.syntax_age := by
  unfold bump_syntax_age
  split
  case isTrue h => rw [if_pos h.2.2]
  case isFalse h =>
    rw [if_neg]
    intro hlt
    exact h ⟨rfl, rfl, hlt⟩

/-- The age effect of the `changesyntax` action dispatch: none of the four
verbs touches the stored syntax-age counter. -/
theorem dispatch_syntax_age (s : m4_syntax_table) (action : Nat)
    (chars : Option (List Nat)) (code : Int) :
    (if action = 43 then add_syntax_set s (chars.getD []) code.toNat
     else if action = 45 then subtract_syntax_set s (chars.getD []) code.toNat
     else if action = 61 then set_syntax_set s (chars.getD []) code.toNat
     else if action = 0 then reset_syntax_set s code.toNat
     else s).syntax_age = s.syntax_age := by
  split
  · exact add_syntax_set_syntax_age s _ _
  · split
    · exact subtract_syntax_set_syntax_age s _ _
    · split
      · exact set_syntax_set_syntax_age s _ _
      · split
        · exact reset_syntax_set_syntax_age s _
        · rfl

/-! ### Claim C3: the reset path and the stored syntax-age counter -/

/-- C3 counterexample: run one changesyntax verb on a fresh table (stored
age becomes 1), then the full reset.  The stored counter is not 0 as the
claim states, and the next verb packs upper bits 2, not 1. -/
theorem C3_counterexample :
    (m4_set_syntax_table (m4_set_syntax_table m4_syntax_create 111 43 (some [33])).2
        0 0 none).2.syntax_age ≠ 0
    ∧ (m4_set_syntax_table
        (m4_set_syntax_table (m4_set_syntax_table m4_syntax_create 111 43 (some [33])).2
          0 0 none).2
        111 43 (some [33])).2.quote_age >>> 16 ≠ 1 := by
  decide

/-- C3 amended: `set_quote_age` persists the locally computed age only in
the change branch; the reset branch uses 0 locally (so the quote age of a
full reset has upper 16 bits 0) but leaves the stored counter unchanged.
Hence the first changesyntax verb executed after a full reset yields a
stored age (and, when safe, quote-age upper bits) equal to the pre-reset
count plus one, saturating, rather than 1. -/
theorem C3_reset_age_not_persisted :
    (∀ s : m4_syntax_table,
      (m4_set_syntax_table s 0 0 none).2.syntax_age = s.syntax_age
      ∧ (m4_set_syntax_table s 0 0 none).2.quote_age >>> 16 = 0)
    ∧ (∀ (s : m4_syntax_table) (c : Bool),
        (set_quote_age s true c).syntax_age = s.syntax_age)
    ∧ (∀ s : m4_syntax_table, s.syntax_age < 0xffff →
        (set_quote_age s false true).syntax_age = s.syntax_age + 1)
    ∧ (∀ (s : m4_syntax_table) (key action : Nat) (chars : Option (List Nat)),
        key ≠ 0 → ¬ m4_syntax_code key < 0 → s.syntax_age < 0xffff →
        (m4_set_syntax_table s key action chars).2.syntax_age = s.syntax_age + 1) := by
  have hreset : ∀ (s : m4_syntax_table) (c : Bool),
      (set_quote_age s true c).syntax_age = s.syntax_age := by
    intro s c
    rw [set_quote_age_syntax_age, bump_syntax_age_reset]
  have hupper : ∀ (s : m4_syntax_table) (c : Bool),
      (set_quote_age s true c).quote_age >>> 16 = 0 := by
    intro s c
    have hla : local_syntax_age s true c = 0 := by
      unfold local_syntax_age
      simp
    simp only [set_quote_age]
    split
    · dsimp only
      rw [hla]
      exact pack_shiftRight_16 (and_255_lt _) (and_255_lt _)
    · dsimp only
      rfl
  refine ⟨?_, hreset, ?_, ?_⟩
  · intro s
    constructor
    · show (set_quote_age _ true false).syntax_age = s.syntax_age
      rw [hreset]
      rfl
    · show (set_quote_age _ true false).quote_age >>> 16 = 0
      rw [hupper]
  · intro s h
    rw [set_quote_age_syntax_age, bump_syntax_age_change, if_pos h]
  · intro s key action chars hk hc h
    simp only [m4_set_syntax_table]
    rw [if_neg hk, if_neg hc]
    show (set_quote_age _ false true).syntax_age = s.syntax_age + 1
    rw [set_quote_age_syntax_age, bump_syntax_age_change, dispatch_syntax_age,
      if_pos h]

/-- C3 witness: the first changesyntax verb on a fresh table increments the
stored age from 0 to 1. -/
theorem C3_witness :
    (m4_set_syntax_table m4_syntax_create 111 43 (some [33])).2.syntax_age
      = m4_syntax_create.syntax_age + 1 :=
  C3_reset_age_not_persisted.2.2.2 m4_syntax_create 111 43 (some [33])
    (by decide) (by decide) (by decide)

/-! ### Claim C7: saturation of the syntax-age counter -/

/-- One representative changesyntax verb: add OTHER to the exclamation-mark
byte. -/
def changesyntax_step (s : m4_syntax_table) : m4_syntax_table :=
  (m4_set_syntax_table s 111 43 (some [33])).2

/-- `n` changesyntax verbs applied to a fresh table. -/
def changesyntax_iter : Nat → m4_syntax_table
  | 0 => m4_syntax_create
  | n + 1 => changesyntax_step (changesyntax_iter n)

theorem changesyntax_step_syntax_age (s : m4_syntax_table) :
    (changesyntax_step s).syntax_age =
      if s.syntax_age < 0xffff then s.syntax_age + 1 else s.syntax_age := by
  unfold changesyntax_step
  simp only [m4_set_syntax_table]
  rw [if_neg (by decide : ¬(111 : Nat) = 0),
    if_neg (by decide : ¬m4_syntax_code 111 < 0)]
  show (set_quote_age _ false true).syntax_age = _
  rw [set_quote_age_syntax_age, bump_syntax_age_change]
  simp only [if_true]
  rw [add_syntax_set_syntax_age]

/-- C7: the stored syntax-age counter saturates at 0xFFFF: any call keeps it
at or below the bound, a verb from a saturated state leaves it saturated
(and the quote-age upper half is zero from then on), below the bound a
change increments it, and iterating changesyntax verbs from a fresh table
yields a counter of exactly `min n 0xFFFF` — so it reaches 0xFFFF after
0xFFFF verbs and never moves again. -/
theorem C7_syntax_age_saturates :
    (∀ (s : m4_syntax_table) (r c : Bool), s.syntax_age ≤ 0xffff →
      (set_quote_age s r c).syntax_age ≤ 0xffff)
    ∧ (∀ (s : m4_syntax_table) (r c : Bool), s.syntax_age = 0xffff →
        (set_quote_age s r c).syntax_age = 0xffff
        ∧ (set_quote_age s r c).quote_age >>> 16 = 0)
    ∧ (∀ (s : m4_syntax_table) (key action : Nat) (chars : Option (List Nat)),
        s.syntax_age = 0xffff →
        (m4_set_syntax_table s key action chars).2.syntax_age = 0xffff)
    ∧ (∀ n, (changesyntax_iter n).syntax_age = min n 0xffff) := by
  have hbump : ∀ (s : m4_syntax_table) (r c : Bool),
      (bump_syntax_age s r c).syntax_age = s.syntax_age
      ∨ (s.syntax_age < 0xffff
          ∧ (bump_syntax_age s r c).syntax_age = s.syntax_age + 1) := by
    intro s r c
    unfold bump_syntax_age
    split
    case isTrue h => exact Or.inr ⟨h.2.2, rfl⟩
    case isFalse => exact Or.inl rfl
  have hle : ∀ (s : m4_syntax_table) (r c : Bool), s.syntax_age ≤ 0xffff →
      (set_quote_age s r c).syntax_age ≤ 0xffff := by
    intro s r c h
    rw [set_quote_age_syntax_age]
    rcases hbump s r c with heq | ⟨hlt, heq⟩ <;> rw [heq] <;> omega
  have hsat : ∀ (s : m4_syntax_table) (r c : Bool), s.syntax_age = 0xffff →
      (set_quote_age s r c).syntax_age = 0xffff := by
    intro s r c h
    rw [set_quote_age_syntax_age]
    rcases hbump s r c with heq | ⟨hlt, _⟩
    · rw [heq, h]
    · omega
  have hupper : ∀ (s : m4_syntax_table) (r c : Bool), s.syntax_age = 0xffff →
      (set_quote_age s r c).quote_age >>> 16 = 0 := by
    intro s r c h
    have hla : local_syntax_age s r c = 0
        ∨ local_syntax_age s r c = 0xffff := by
      unfold local_syntax_age
      split
      · exact Or.inl rfl
      · split
        · omega
        · exact Or.inr h
    simp only [set_quote_age]
    split
    case isTrue hok =>
      rcases hla with hla | hla
      · dsimp only
        rw [hla]
        exact pack_shiftRight_16 (and_255_lt _) (and_255_lt _)
      · exact absurd hok.1 (by rw [hla]; omega)
    case isFalse =>
      dsimp only
      rfl
  refine ⟨hle, fun s r c h => ⟨hsat s r c h, hupper s r c h⟩, ?_, ?_⟩
  · intro s key action chars h
    simp only [m4_set_syntax_table]
    split
    · show (set_quote_age _ true false).syntax_age = 0xffff
      exact hsat _ true false h
    · split
      · exact h
      · show (set_quote_age _ false true).syntax_age = 0xffff
        apply hsat
        rw [dispatch_syntax_age]
        exact h
  · intro n
    induction n with
    | zero => decide
    | succ n ih =>
      show (changesyntax_step (changesyntax_iter n)).syntax_age = _
      rw [changesyntax_step_syntax_age, ih]
      rcases Nat.lt_or_ge n 0xffff with h | h
      · rw [if_pos (by omega : min n 0xffff < 0xffff)]
        omega
      · rw [if_neg (by omega : ¬ min n 0xffff < 0xffff)]
        omega

/-- C7 witness: a state whose counter sits at the saturation bound is left
saturated by a subsequent change, with a zero quote-age upper half. -/
theorem C7_witness :
    (set_quote_age { m4_syntax_create with syntax_age := 0xffff }
        false true).syntax_age = 0xffff
    ∧ (set_quote_age { m4_syntax_create with syntax_age := 0xffff }
        false true).quote_age >>> 16 = 0 :=
  C7_syntax_age_saturates.2.1 { m4_syntax_create with syntax_age := 0xffff }
    false true rfl

/-! ### Claim C2: is_single_quotes versus the stored quote data -/

/-- The part of claim C2 that the code maintains: a true
`is_single_quotes` flag guarantees both stored quote strings (fields and
byte lists) have length 1. -/
def single_quotes_len_inv (s : m4_syntax_table) : Prop :=
  s.is_single_quotes = true →
    s.quote.len1 = 1 ∧ s.quote.len2 = 1
    ∧ s.quote.str1.length = 1 ∧ s.quote.str2.length = 1

instance (s : m4_syntax_table) : Decidable (single_quotes_len_inv s) := by
  unfold single_quotes_len_inv; infer_instance

theorem inv_transport {t s : m4_syntax_table}
    (hq : t.quote = s.quote) (hf : t.is_single_quotes = s.is_single_quotes)
    (h : single_quotes_len_inv s) : single_quotes_len_inv t := by
  intro hflag
  rw [hq]
  exact h (hf.symm.trans hflag)

theorem inv_table_only {t s : m4_syntax_table} (ht : table_only_change t s)
    (h : single_quotes_len_inv s) : single_quotes_len_inv t :=
  inv_transport (table_only_change_quote ht)
    (table_only_change_is_single_quotes ht) h

theorem check_is_single_comments_quote_flag (s : m4_syntax_table) :
    (check_is_single_comments s).quote = s.quote
    ∧ (check_is_single_comments s).is_single_quotes = s.is_single_quotes := by
  unfold check_is_single_comments
  repeat' split
  all_goals try dsimp only
  all_goals repeat' split
  all_goals exact ⟨rfl, rfl⟩

theorem set_quote_age_quote_flag (s : m4_syntax_table) (r c : Bool) :
    (set_quote_age s r c).quote = s.quote
    ∧ (set_quote_age s r c).is_single_quotes = s.is_single_quotes := by
  simp only [set_quote_age, bump_syntax_age]
  repeat' split
  all_goals exact ⟨rfl, rfl⟩

theorem check_is_single_quotes_inv {s : m4_syntax_table}
    (h : single_quotes_len_inv s) :
    single_quotes_len_inv (check_is_single_quotes s) := by
  unfold check_is_single_quotes
  repeat' split
  all_goals try dsimp only
  all_goals repeat' split
  all_goals
    first
      | exact h
      | (intro hf; exact absurd hf Bool.false_ne_true)
      | (intro hf
         obtain ⟨l1, l2, l3, l4⟩ := h hf
         exact ⟨l1, l2, by simp [List.length_tail, l3],
           by simp [List.length_tail, l4]⟩)

theorem add_syntax_set_inv {s : m4_syntax_table} (chars : List Nat) (code : Nat)
    (h : single_quotes_len_inv s) :
    single_quotes_len_inv (add_syntax_set s chars code) := by
  unfold add_syntax_set
  split
  · exact h
  · split
    · exact inv_table_only (add_syntax_chars_frame chars _ code)
        (inv_transport rfl rfl h)
    · exact inv_table_only (add_syntax_chars_frame chars _ code) h

theorem subtract_syntax_set_inv {s : m4_syntax_table} (chars : List Nat)
    (code : Nat) (h : single_quotes_len_inv s) :
    single_quotes_len_inv (subtract_syntax_set s chars code) := by
  have h1 : single_quotes_len_inv (subtract_syntax_chars s chars code) :=
    inv_table_only (subtract_syntax_chars_frame chars s code) h
  unfold subtract_syntax_set
  split
  · exact h
  · dsimp only
    repeat' split
    all_goals
      first
        | exact h1
        | exact inv_transport rfl rfl h1
        | exact check_is_single_quotes_inv h1
        | exact inv_transport (check_is_single_comments_quote_flag _).1
            (check_is_single_comments_quote_flag _).2 h1

theorem checker_chain_inv {s : m4_syntax_table} (h : single_quotes_len_inv s) :
    single_quotes_len_inv
      (check_is_single_comments (check_is_single_quotes (check_is_macro_escaped s))) :=
  inv_transport (check_is_single_comments_quote_flag _).1
    (check_is_single_comments_quote_flag _).2
    (check_is_single_quotes_inv (inv_transport rfl rfl h))

theorem set_syntax_set_inv {s : m4_syntax_table} (chars : List Nat) (code : Nat)
    (h : single_quotes_len_inv s) :
    single_quotes_len_inv (set_syntax_set s chars code) := by
  simp only [set_syntax_set]
  exact checker_chain_inv
    (inv_table_only (add_syntax_chars_frame chars _ code)
      (inv_transport rfl rfl h))

theorem reset_syntax_set_inv {s : m4_syntax_table} (code : Nat)
    (h : single_quotes_len_inv s) :
    single_quotes_len_inv (reset_syntax_set s code) := by
  simp only [reset_syntax_set]
  exact checker_chain_inv (inv_transport rfl rfl h)

/-- A state whose single-quote flag is the conjunction of a length test with
anything else satisfies the length invariant, provided the stored length
fields agree with the byte lists. -/
theorem inv_of_decide_flag {t : m4_syntax_table} (b : Bool)
    (hq : t.is_single_quotes
      = (decide (t.quote.len1 = 1 ∧ t.quote.len2 = 1) && b))
    (hl1 : t.quote.str1.length = t.quote.len1)
    (hl2 : t.quote.str2.length = t.quote.len2) :
    single_quotes_len_inv t := by
  intro hflag
  rw [hq] at hflag
  simp only [Bool.and_eq_true, decide_eq_true_eq] at hflag
  obtain ⟨⟨a1, a2⟩, -⟩ := hflag
  exact ⟨a1, a2, hl1.trans a1, hl2.trans a2⟩

/-- C2 counterexample: `changesyntax` adding ALPHA to the backtick on a fresh table
replaces the LQUOTE basis of the backtick without rerunning the
single-quote checker: afterwards `is_single_quotes` is still true although
the stored left-quote byte no longer carries LQUOTE, refuting the stated
biconditional. -/
theorem C2_counterexample :
    (m4_set_syntax_table m4_syntax_create 119 43 (some [96])).2.is_single_quotes = true
    ∧ (m4_set_syntax_table m4_syntax_create 119 43 (some [96])).2.quote.str1 = [96]
    ∧ m4_has_syntax_bits (m4_set_syntax_table m4_syntax_create 119 43 (some [96])).2
        96 M4_SYNTAX_LQUOTE = false := by
  decide

/-- C2 amended: after every operation, a true `is_single_quotes` still
guarantees that both stored quote strings have length 1 (the flag is only
ever set true together with length-1 strings, and the checker rewrite
keeps them single bytes); the category half of the biconditional fails,
since the add verb can strip LQUOTE from the stored byte without clearing
the flag, and checkers never turn a false flag back on. -/
theorem C2_single_quotes_length_invariant :
    (∀ (s : m4_syntax_table) (key action : Nat) (chars : Option (List Nat)),
      single_quotes_len_inv s →
      single_quotes_len_inv (m4_set_syntax_table s key action chars).2)
    ∧ (∀ (s : m4_syntax_table) (lq rq : Option (List Nat)),
        single_quotes_len_inv s →
        single_quotes_len_inv (m4_set_quotes s lq rq))
    ∧ (∀ (s : m4_syntax_table) (bc ec : Option (List Nat)),
        single_quotes_len_inv s →
        single_quotes_len_inv (m4_set_comment s bc ec))
    ∧ single_quotes_len_inv m4_syntax_create := by
  refine ⟨?_, ?_, ?_, by decide⟩
  · intro s key action chars h
    simp only [m4_set_syntax_table]
    split
    · refine inv_transport (set_quote_age_quote_flag _ true false).1
        (set_quote_age_quote_flag _ true false).2 ?_
      intro _
      exact ⟨rfl, rfl, rfl, rfl⟩
    · split
      · exact h
      · refine inv_transport rfl rfl
          (inv_transport (set_quote_age_quote_flag _ false true).1
            (set_quote_age_quote_flag _ false true).2 ?_)
        repeat' split
        all_goals
          first
            | exact h
            | exact add_syntax_set_inv _ _ h
            | exact subtract_syntax_set_inv _ _ h
            | exact set_syntax_set_inv _ _ h
            | exact reset_syntax_set_inv _ h
  · intro s lq rq h
    simp only [m4_set_quotes]
    repeat' split
    all_goals
      first
        | exact h
        | exact inv_transport (set_quote_age_quote_flag _ false false).1
            (set_quote_age_quote_flag _ false false).2
            (inv_of_decide_flag _ rfl rfl rfl)
  · intro s bc ec h
    simp only [m4_set_comment]
    repeat' split
    all_goals
      first
        | exact h
        | exact inv_transport (set_quote_age_quote_flag _ false false).1
            (set_quote_age_quote_flag _ false false).2
            (inv_transport rfl rfl h)

/-- C2 witness: the length invariant instantiated after a concrete
changequote on the fresh table. -/
theorem C2_witness :
    single_quotes_len_inv (m4_set_quotes m4_syntax_create (some [91]) (some [93])) :=
  C2_single_quotes_length_invariant.2.1 m4_syntax_create (some [91]) (some [93])
    (by decide)

/-! ### Claim C4: disabling quoting with an empty left quote -/

/-- The fifteen basis category codes. -/
def basis_codes : List Nat :=
  [M4_SYNTAX_IGNORE, M4_SYNTAX_OTHER, M4_SYNTAX_SPACE, M4_SYNTAX_OPEN,
    M4_SYNTAX_CLOSE, M4_SYNTAX_COMMA, M4_SYNTAX_DOLLAR, M4_SYNTAX_LBRACE,
    M4_SYNTAX_RBRACE, M4_SYNTAX_ACTIVE, M4_SYNTAX_ESCAPE, M4_SYNTAX_ALPHA,
    M4_SYNTAX_NUM, M4_SYNTAX_LQUOTE, M4_SYNTAX_BCOMM]

/-- A well-formed default vector: every entry is a pure basis code, as
`m4_syntax_create` guarantees. -/
def wf_orig (s : m4_syntax_table) : Prop :=
  ∀ ch, ch < 256 → s.orig ch ∈ basis_codes

instance (s : m4_syntax_table) : Decidable (wf_orig s) := by
  unfold wf_orig; infer_instance

theorem basis_and_masks {x : Nat} (h : x ∈ basis_codes) :
    x &&& M4_SYNTAX_MASKS = 0 := by
  fin_cases h <;> decide

theorem basis_lt_two_pow {x : Nat} (h : x ∈ basis_codes) : x < 2 ^ 32 := by
  fin_cases h <;> decide

theorem basis_and_lquote {x : Nat} (h : x ∈ basis_codes)
    (hx : x ≠ M4_SYNTAX_LQUOTE) : x &&& M4_SYNTAX_LQUOTE = 0 := by
  fin_cases h <;> first | (exact absurd rfl hx) | decide

/-- The RQUOTE-mask removal in the second half of a sweep iteration cannot
introduce an LQUOTE bit. -/
theorem step2_lquote_free {e1 : Nat} (he1 : e1 &&& M4_SYNTAX_LQUOTE = 0) :
    (if e1 &&& M4_SYNTAX_RQUOTE ≠ 0 then remove_attr e1 M4_SYNTAX_RQUOTE else e1)
      &&& M4_SYNTAX_LQUOTE = 0 := by
  split
  · rw [remove_attr, Nat.and_assoc,
      (by decide : not32 M4_SYNTAX_RQUOTE &&& M4_SYNTAX_LQUOTE = M4_SYNTAX_LQUOTE)]
    exact he1
  · exact he1

/-- After the LQUOTE/RQUOTE sweep of `m4_set_quotes`, no byte carries
LQUOTE (given a well-formed default vector). -/
theorem quotes_sweep_lquote_free (s2 : m4_syntax_table) (hwf : wf_orig s2)
    (ch : Nat) (hch : ch < 256) :
    quotes_sweep_entry s2 ch &&& M4_SYNTAX_LQUOTE = 0 := by
  have hml : M4_SYNTAX_MASKS &&& M4_SYNTAX_LQUOTE = 0 := by decide
  have he1 : (if m4_has_syntax_bits s2 ch M4_SYNTAX_LQUOTE then
        add_attr (s2.table ch)
          (if s2.orig ch = M4_SYNTAX_LQUOTE then M4_SYNTAX_OTHER else s2.orig ch)
      else s2.table ch) &&& M4_SYNTAX_LQUOTE = 0 := by
    split
    case isTrue =>
      have hb : (if s2.orig ch = M4_SYNTAX_LQUOTE then M4_SYNTAX_OTHER
          else s2.orig ch) &&& M4_SYNTAX_MASKS = 0 := by
        split
        · decide
        · exact basis_and_masks (hwf ch hch)
      have hbl : (if s2.orig ch = M4_SYNTAX_LQUOTE then M4_SYNTAX_OTHER
          else s2.orig ch) &&& M4_SYNTAX_LQUOTE = 0 := by
        split
        case isTrue => decide
        case isFalse hne => exact basis_and_lquote (hwf ch hch) hne
      rw [add_attr, if_neg (by rw [hb]; exact fun hk => hk rfl),
        Nat.and_distrib_right, Nat.and_assoc, hml, Nat.and_zero, Nat.zero_or,
        hbl]
    case isFalse hno =>
      simpa [m4_has_syntax_bits] using hno
  unfold quotes_sweep_entry
  dsimp only
  exact step2_lquote_free he1

theorem set_quote_age_table (s : m4_syntax_table) (r c : Bool) :
    (set_quote_age s r c).table = s.table := by
  simp only [set_quote_age, bump_syntax_age]
  repeat' split
  all_goals rfl

/-- The right quote that `m4_set_quotes` installs when the left quote is the
empty (non-null) string: the default apostrophe for a null argument,
otherwise the argument itself. -/
def empty_lq_rquote (rqo : Option (List Nat)) : List Nat :=
  if rqo = none then DEF_RQUOTE else rqo.getD []

/-- C4 counterexample: `set_quotes` with an empty left quote and the
three-byte right quote leaves the right string at length 3, so the claim
that both owned strings end up empty fails; even a null right quote yields
the one-byte apostrophe string. -/
theorem C4_counterexample :
    (m4_set_quotes m4_syntax_create (some []) (some [120, 121, 122])).quote.len2 = 3
    ∧ (m4_set_quotes m4_syntax_create (some []) (some [120, 121, 122])).quote.str2
        = [120, 121, 122]
    ∧ (m4_set_quotes m4_syntax_create (some []) none).quote.len2 = 1 := by
  decide

/-- C4 amended: calling `set_quotes` with an empty (length-0, non-null) left
quote disables quoting whenever the call is not the no-op short circuit: the
owned left string becomes empty, `is_single_quotes` becomes false, and
(for a well-formed default vector) no byte carries LQUOTE.  The owned right
string however becomes the apostrophe when the argument was null and is
kept verbatim otherwise; it is empty only if an empty string was passed. -/
theorem C4_empty_left_quote_disables (s : m4_syntax_table)
    (rqo : Option (List Nat)) (hwf : wf_orig s)
    (hne : ¬(s.quote.str1 = [] ∧ s.quote.str2 = empty_lq_rquote rqo)) :
    (m4_set_quotes s (some []) rqo).quote.str1 = []
    ∧ (m4_set_quotes s (some []) rqo).quote.len1 = 0
    ∧ (m4_set_quotes s (some []) rqo).quote.str2 = empty_lq_rquote rqo
    ∧ (m4_set_quotes s (some []) rqo).quote.len2 = (empty_lq_rquote rqo).length
    ∧ (m4_set_quotes s (some []) rqo).is_single_quotes = false
    ∧ ∀ ch, ch < 256 →
        m4_has_syntax_bits (m4_set_quotes s (some []) rqo) ch M4_SYNTAX_LQUOTE
          = false := by
  rcases rqo with _ | r
  case none =>
    simp only [m4_set_quotes]
    split
    case isTrue h => exact absurd h hne
    case isFalse =>
      refine ⟨?_, ?_, ?_, ?_, ?_, ?_⟩
      · rw [(set_quote_age_quote_flag _ false false).1]
        repeat' split
        all_goals first | rfl | simp_all [quotes_defaults]
      · rw [(set_quote_age_quote_flag _ false false).1]
        repeat' split
        all_goals first | rfl | simp_all [quotes_defaults]
      · rw [(set_quote_age_quote_flag _ false false).1]
        repeat' split
        all_goals first | rfl | simp_all [quotes_defaults]
      · rw [(set_quote_age_quote_flag _ false false).1]
        repeat' split
        all_goals first | rfl | simp_all [quotes_defaults]
      · rw [(set_quote_age_quote_flag _ false false).2]
        repeat' split
        all_goals first | rfl | simp_all [quotes_defaults]
      · intro ch hch
        refine decide_eq_false fun hk => hk ?_
        rw [set_quote_age_table]
        repeat' split
        all_goals
          first
            | (show (if ch < 256 then quotes_sweep_entry _ ch else _) &&& _ = 0
               rw [if_pos hch]
               exact quotes_sweep_lquote_free _ hwf ch hch)
            | simp_all [quotes_defaults]
  case some =>
    simp only [m4_set_quotes]
    split
    case isTrue h => exact absurd h hne
    case isFalse =>
      refine ⟨?_, ?_, ?_, ?_, ?_, ?_⟩
      · rw [(set_quote_age_quote_flag _ false false).1]
        repeat' split
        all_goals first | rfl | simp_all [quotes_defaults]
      · rw [(set_quote_age_quote_flag _ false false).1]
        repeat' split
        all_goals first | rfl | simp_all [quotes_defaults]
      · rw [(set_quote_age_quote_flag _ false false).1]
        repeat' split
        all_goals first | rfl | simp_all [quotes_defaults]
      · rw [(set_quote_age_quote_flag _ false false).1]
        repeat' split
        all_goals first | rfl | simp_all [quotes_defaults]
      · rw [(set_quote_age_quote_flag _ false false).2]
        repeat' split
        all_goals first | rfl | simp_all [quotes_defaults]
      · intro ch hch
        refine decide_eq_false fun hk => hk ?_
        rw [set_quote_age_table]
        repeat' split
        all_goals
          first
            | (show (if ch < 256 then quotes_sweep_entry _ ch else _) &&& _ = 0
               rw [if_pos hch]
               exact quotes_sweep_lquote_free _ hwf ch hch)
            | simp_all [quotes_defaults]

set_option maxRecDepth 4096 in
/-- C4 witness: the amended theorem applied to the fresh table with an
empty left quote and a concrete right quote. -/
theorem C4_witness :
    wf_orig m4_syntax_create
    ∧ (m4_set_quotes m4_syntax_create (some [])
        (some [120, 121, 122])).is_single_quotes = false
    ∧ m4_has_syntax_bits
        (m4_set_quotes m4_syntax_create (some []) (some [120, 121, 122]))
        96 M4_SYNTAX_LQUOTE = false :=
  ⟨by decide,
    (C4_empty_left_quote_disables m4_syntax_create (some [120, 121, 122])
      (by decide) (by decide)).2.2.2.2.1,
    (C4_empty_left_quote_disables m4_syntax_create (some [120, 121, 122])
      (by decide) (by decide)).2.2.2.2.2 96 (by decide)⟩

/-! ### Claim C5: the changesyntax reset verb -/

theorem check_is_single_quotes_table_escaped (s : m4_syntax_table) :
    (check_is_single_quotes s).table = s.table
    ∧ (check_is_single_quotes s).is_macro_escaped = s.is_macro_escaped := by
  unfold check_is_single_quotes
  repeat' split
  all_goals try dsimp only
  all_goals repeat' split
  all_goals exact ⟨rfl, rfl⟩

theorem check_is_single_comments_table_escaped (s : m4_syntax_table) :
    (check_is_single_comments s).table = s.table
    ∧ (check_is_single_comments s).is_macro_escaped = s.is_macro_escaped := by
  unfold check_is_single_comments
  repeat' split
  all_goals try dsimp only
  all_goals repeat' split
  all_goals exact ⟨rfl, rfl⟩

/-- The table produced by the reset verb is exactly the sweep, because the
three checkers never write the table. -/
theorem reset_syntax_set_table (s : m4_syntax_table) (code : Nat) :
    (reset_syntax_set s code).table =
      fun ch => if ch < 256 then reset_syntax_sweep_entry s code ch
        else s.table ch := by
  simp only [reset_syntax_set]
  rw [(check_is_single_comments_table_escaped _).1,
    (check_is_single_quotes_table_escaped _).1]
  rfl

theorem basis_ne_mask_codes {x : Nat} (h : x ∈ basis_codes) :
    x ≠ M4_SYNTAX_RQUOTE ∧ x ≠ M4_SYNTAX_ECOMM := by
  fin_cases h <;> exact ⟨by decide, by decide⟩

theorem or_and_self_ne_zero {e m : Nat} (hm : m ≠ 0) : (e ||| m) &&& m ≠ 0 := by
  intro h0
  apply hm
  apply Nat.eq_of_testBit_eq
  intro i
  simp only [Nat.zero_testBit]
  have h1 := congrArg (fun x => Nat.testBit x i) h0
  simp only [Nat.testBit_and, Nat.testBit_or, Nat.zero_testBit] at h1
  cases hmi : m.testBit i
  · rfl
  · rw [hmi] at h1
    simp at h1

/-- C5: the changesyntax reset verb.  For RQUOTE the mask ends set exactly
on the apostrophe; for ECOMM exactly on the newline; a basis code restores
the default basis (mask bits preserved) on every byte whose default is the
code or which currently carries it and leaves other bytes untouched, so
after resetting LQUOTE a byte carries LQUOTE exactly when its default basis
is LQUOTE; and the three checkers are re-run, in particular
`is_macro_escaped` equals the scan of the resulting table for ESCAPE. -/
theorem C5_reset_verb (s : m4_syntax_table) (hwf : wf_orig s) :
    (∀ ch, ch < 256 →
      (m4_has_syntax_bits (reset_syntax_set s M4_SYNTAX_RQUOTE) ch M4_SYNTAX_RQUOTE
        = true ↔ ch = 39))
    ∧ (∀ ch, ch < 256 →
        (m4_has_syntax_bits (reset_syntax_set s M4_SYNTAX_ECOMM) ch M4_SYNTAX_ECOMM
          = true ↔ ch = 10))
    ∧ (∀ code, code ∈ basis_codes → ∀ ch, ch < 256 →
        ((s.orig ch = code ∨ m4_has_syntax_bits s ch code = true) →
          (reset_syntax_set s code).table ch &&& not32 M4_SYNTAX_MASKS
            = s.orig ch)
        ∧ (¬(s.orig ch = code ∨ m4_has_syntax_bits s ch code = true) →
          (reset_syntax_set s code).table ch = s.table ch))
    ∧ (∀ ch, ch < 256 →
        (m4_has_syntax_bits (reset_syntax_set s M4_SYNTAX_LQUOTE) ch M4_SYNTAX_LQUOTE
          = true ↔ s.orig ch = M4_SYNTAX_LQUOTE))
    ∧ (∀ code, (reset_syntax_set s code).is_macro_escaped
        = ((List.range 256).reverse.any fun b =>
            m4_has_syntax_bits (reset_syntax_set s code) b M4_SYNTAX_ESCAPE)) := by
  refine ⟨?_, ?_, ?_, ?_, ?_⟩
  · intro ch hch
    simp only [m4_has_syntax_bits, reset_syntax_set_table]
    rw [if_pos hch]
    unfold reset_syntax_sweep_entry
    rw [if_pos rfl]
    split
    case isTrue h =>
      simp only [add_attr, if_pos (by decide :
        M4_SYNTAX_RQUOTE &&& M4_SYNTAX_MASKS ≠ 0)]
      simp [or_and_self_ne_zero (by decide : M4_SYNTAX_RQUOTE ≠ 0), h]
    case isFalse h =>
      have hz : remove_attr (s.table ch) M4_SYNTAX_RQUOTE &&& M4_SYNTAX_RQUOTE
          = 0 := by
        rw [remove_attr, Nat.and_assoc,
          (by decide : not32 M4_SYNTAX_RQUOTE &&& M4_SYNTAX_RQUOTE = 0),
          Nat.and_zero]
      simp [hz, h]
  · intro ch hch
    simp only [m4_has_syntax_bits, reset_syntax_set_table]
    rw [if_pos hch]
    unfold reset_syntax_sweep_entry
    rw [if_neg (by decide : ¬M4_SYNTAX_ECOMM = M4_SYNTAX_RQUOTE), if_pos rfl]
    split
    case isTrue h =>
      simp only [add_attr, if_pos (by decide :
        M4_SYNTAX_ECOMM &&& M4_SYNTAX_MASKS ≠ 0)]
      simp [or_and_self_ne_zero (by decide : M4_SYNTAX_ECOMM ≠ 0), h]
    case isFalse h =>
      have hz : remove_attr (s.table ch) M4_SYNTAX_ECOMM &&& M4_SYNTAX_ECOMM
          = 0 := by
        rw [remove_attr, Nat.and_assoc,
          (by decide : not32 M4_SYNTAX_ECOMM &&& M4_SYNTAX_ECOMM = 0),
          Nat.and_zero]
      simp [hz, h]
  · intro code hcode ch hch
    obtain ⟨hnr, hne⟩ := basis_ne_mask_codes hcode
    rw [reset_syntax_set_table]
    dsimp only
    rw [if_pos hch]
    unfold reset_syntax_sweep_entry
    rw [if_neg hnr, if_neg hne]
    constructor
    · intro hcond
      rw [if_pos hcond, add_attr, if_neg (by
        rw [basis_and_masks (hwf ch hch)]; exact fun hk => hk rfl)]
      rw [Nat.and_distrib_right, Nat.and_assoc,
        (by decide : M4_SYNTAX_MASKS &&& not32 M4_SYNTAX_MASKS = 0),
        Nat.and_zero, Nat.zero_or,
        and_not32_of_disjoint (basis_lt_two_pow (hwf ch hch))
          (basis_and_masks (hwf ch hch))]
    · intro hcond
      rw [if_neg hcond]
  · intro ch hch
    simp only [m4_has_syntax_bits, reset_syntax_set_table]
    rw [if_pos hch]
    unfold reset_syntax_sweep_entry
    rw [if_neg (by decide : ¬M4_SYNTAX_LQUOTE = M4_SYNTAX_RQUOTE),
      if_neg (by decide : ¬M4_SYNTAX_LQUOTE = M4_SYNTAX_ECOMM)]
    split
    case isTrue hcond =>
      rw [add_attr, if_neg (by
        rw [basis_and_masks (hwf ch hch)]; exact fun hk => hk rfl)]
      rw [Nat.and_distrib_right, Nat.and_assoc,
        (by decide : M4_SYNTAX_MASKS &&& M4_SYNTAX_LQUOTE = 0), Nat.and_zero,
        Nat.zero_or]
      by_cases horig : s.orig ch = M4_SYNTAX_LQUOTE
      · rw [horig]
        decide
      · rw [basis_and_lquote (hwf ch hch) horig]
        simp [horig]
    case isFalse hcond =>
      push_neg at hcond
      obtain ⟨ho, hh⟩ := hcond
      have hz : s.table ch &&& M4_SYNTAX_LQUOTE = 0 := by
        simpa [m4_has_syntax_bits] using hh
      simp [hz, ho]
  · intro code
    simp only [reset_syntax_set]
    rw [(check_is_single_comments_table_escaped _).2,
      (check_is_single_quotes_table_escaped _).2]
    show ((List.range 256).reverse.any fun ch => m4_has_syntax_bits _ ch _) = _
    have htab := reset_syntax_set_table s code
    simp only [reset_syntax_set] at htab
    simp only [m4_has_syntax_bits, htab]

set_option maxRecDepth 4096 in
/-- C5 witness: the reset verb for RQUOTE on the fresh table sets the mask
on the apostrophe. -/
theorem C5_witness :
    wf_orig m4_syntax_create
    ∧ (m4_has_syntax_bits (reset_syntax_set m4_syntax_create M4_SYNTAX_RQUOTE)
        39 M4_SYNTAX_RQUOTE = true ↔ 39 = 39) :=
  ⟨by decide, (C5_reset_verb m4_syntax_create (by decide)).1 39 (by decide)⟩

end M4Syntax
